import Mathlib

/-!
Verification of the platform-conditional build-configuration resolution of the
ReCpp build recipes (mamafile.py and conanfile.py). The embedding covers the
three sub-resolutions the spec singles out: build options from environment
flags, system-library requirements per platform target, and the test
invocation with its "nogdb" sentinel. File copying and packaging are I/O glue
outside the scope of the spec and of this development.
-/

set_option maxRecDepth 4000

/-- Target platform descriptor. The ad hoc boolean platform properties
(self.windows, self.raspi, ...) are provided by the external mama build tool;
following the data model of the spec they are represented as a closed
enumeration, one value per target, with "other" for any unrecognized
platform. -/
inductive Platform where
  | windows
  | linux
  | android
  | macos
  | ios
  | raspi
  | oclea
  | mips
  | other
  deriving DecidableEq, Repr, Fintype

/-- A system-library requirement: a library name plus an optional
package-hint string, as produced by export_syslib. -/
structure SysLibRequirement where
  name : String
  hint : Option String
  deriving DecidableEq, Repr

/-- The system-library part of ReCpp.package (mamafile.py lines 41-56): an
if/elif chain over the platform flags, each branch a fixed ordered sequence of
export_syslib calls. The copy/export_lib statements above it are file I/O and
carry no syslib information. -/
def ReCpp.package (p : Platform) : List SysLibRequirement :=
  if p = Platform.raspi ∨ p = Platform.oclea then
    [⟨"dl", none⟩, ⟨"rt", none⟩]
  else if p = Platform.mips then
    [⟨"dl", none⟩, ⟨"rt", none⟩, ⟨"atomic", none⟩]
  else if p = Platform.linux then
    [⟨"dl", none⟩, ⟨"dw", some "libdw-dev"⟩, ⟨"rt", none⟩]
  else if p = Platform.android then
    [⟨"android", none⟩, ⟨"log", none⟩]
  else if p = Platform.macos ∨ p = Platform.ios then
    [⟨"-framework Foundation", none⟩]
  else
    []

/-- The process environment, a read-only mapping from variable name to value;
an unset variable maps to none (os.getenv returns None). -/
def Env : Type := String → Option String

/-- The caller-supplied inputs of ReCpp.configure that come from the mama
config object: the requested test mode string (self.config.test) and the
language-standard preferences (self.is_enabled_cxx17 / cxx20). -/
structure Config where
  test : String
  cxx17 : Bool
  cxx20 : Bool

/-- The mutable build-target state that ReCpp.configure appends to: the
compiler flags (add_cl_flags) and the build-option sequence (enable_from_env).
Constructed fresh per resolution. -/
structure BuildState where
  cl_flags : List String
  options : List String
  deriving DecidableEq, Repr

/-- Modelled from the spec: enabled-ness of an environment flag. The function
enable_from_env is implemented in the external mama build tool, not in this
repository; the spec states a flag is enabled iff its environment string value
is exactly "1", "ON", or "TRUE", or the caller-supplied force condition
holds. -/
def envEnabled (env : Env) (name : String) : Bool :=
  match env name with
  | some v => v == "1" || v == "ON" || v == "TRUE"
  | none => false

/-- Modelled from the spec: enable_from_env of the external mama build tool.
An enabled flag appends exactly one build option for its name to the output
sequence; a disabled flag appends nothing. The spec leaves the ON/TRUE value
convention of each flag unspecified, so an option is identified here by its
flag name. -/
def enable_from_env (env : Env) (name : String) (force : Bool)
    (s : BuildState) : BuildState :=
  if envEnabled env name || force then
    { s with options := s.options ++ [name] }
  else
    s

/-- Embedding of ReCpp.configure (mamafile.py lines 20-30): on windows with
the APPVEYOR environment variable set (a pure presence check, getenv != None),
append the /DAPPVEYOR compiler flag; then run the fixed registry of
enable_from_env calls in source order. -/
def ReCpp.configure (p : Platform) (env : Env) (cfg : Config)
    (s : BuildState) : BuildState :=
  let s1 := if p = Platform.windows ∧ env "APPVEYOR" ≠ none then
              { s with cl_flags := s.cl_flags ++ ["/DAPPVEYOR"] }
            else s
  let s2 := enable_from_env env "BUILD_TESTS" (cfg.test != "") s1
  let s3 := enable_from_env env "BUILD_WITH_MEM_SAFETY" false s2
  let s4 := enable_from_env env "BUILD_WITH_THREAD_SAFETY" false s3
  let s5 := enable_from_env env "BUILD_WITH_CODE_COVERAGE" false s4
  let s6 := enable_from_env env "CXX17" cfg.cxx17 s5
  let s7 := enable_from_env env "CXX20" cfg.cxx20 s6
  s7

/-- The flag registry of ReCpp.configure, in source order, each flag paired
with its caller-supplied force condition. -/
def registry (cfg : Config) : List (String × Bool) :=
  [("BUILD_TESTS", cfg.test != ""),
   ("BUILD_WITH_MEM_SAFETY", false),
   ("BUILD_WITH_THREAD_SAFETY", false),
   ("BUILD_WITH_CODE_COVERAGE", false),
   ("CXX17", cfg.cxx17),
   ("CXX20", cfg.cxx20)]

/-- The fresh per-resolution state: nothing persists across calls. -/
def initState : BuildState := ⟨[], []⟩

/-- The resolved ordered build-option sequence: the options accumulated by a
single ReCpp.configure call started from the fresh state. -/
def resolveBuildOptions (p : Platform) (env : Env) (cfg : Config) :
    List String :=
  (ReCpp.configure p env cfg initState).options

/-- The resolved compiler-flag sequence of a single ReCpp.configure call
started from the fresh state. -/
def resolveClFlags (p : Platform) (env : Env) (cfg : Config) : List String :=
  (ReCpp.configure p env cfg initState).cl_flags

/-- Substring containment on character lists: true iff pat occurs as a
contiguous run. Mirrors the Python expression "nogdb" in args. -/
def listContains (pat : List Char) : List Char → Bool
  | [] => pat.isEmpty
  | c :: cs => pat.isPrefixOf (c :: cs) || listContains pat cs

/-- Substring containment on strings, the semantics of the Python membership
test pat in s. -/
def strContains (s pat : String) : Bool :=
  listContains pat.data s.data

/-- Left-to-right removal of every non-overlapping occurrence of pat, the
semantics of the Python expression s.replace(pat, "") for a non-empty pat.
The Nat argument is structural-recursion fuel; one unit is spent per removed
occurrence or retained character, so fuel equal to the list length is always
enough. -/
def removeAllFuel (pat : List Char) : Nat → List Char → List Char
  | _, [] => []
  | 0, l => l
  | Nat.succ n, c :: cs =>
    if pat ≠ [] ∧ pat.isPrefixOf (c :: cs) then
      removeAllFuel pat n ((c :: cs).drop pat.length)
    else
      c :: removeAllFuel pat n cs

/-- String-level removal of every occurrence of pat, the semantics of the
Python call s.replace(pat, "") for a non-empty pat. -/
def strRemoveAll (s pat : String) : String :=
  String.mk (removeAllFuel pat.data s.data.length s.data)

/-- A resolved test invocation: whether the command is wrapped in the gdb
debugger, and the command line handed to the execution layer. -/
structure TestInvocation where
  use_gdb : Bool
  command : String
  deriving DecidableEq, Repr

/-- Embedding of ReCpp.test (mamafile.py lines 64-69): if the argument string
contains "nogdb" (Python substring membership), every occurrence of the
substring is removed (str.replace with the empty replacement) and the test
binary runs directly via run_program; otherwise the command is wrapped in
gdb. -/
def ReCpp.test (args : String) : TestInvocation :=
  if strContains args "nogdb" then
    { use_gdb := false, command := "bin/RppTests " ++ strRemoveAll args "nogdb" }
  else
    { use_gdb := true, command := "bin/RppTests " ++ args }

/-- The space character, the separator of a command-line string. -/
def spaceChar : Char := Char.ofNat 32

/-- Whitespace tokenization of a character list: split on spaces, dropping
empty tokens; cur accumulates the characters of the current token in reverse
order. -/
def tokensAux (cur : List Char) : List Char → List String
  | [] => if cur.isEmpty then [] else [String.mk cur.reverse]
  | c :: cs =>
    if c = spaceChar then
      if cur.isEmpty then tokensAux [] cs
      else String.mk cur.reverse :: tokensAux [] cs
    else
      tokensAux (c :: cur) cs

/-- Whitespace tokenization of a command line, as the shell-level execution
layer sees it: split on spaces, dropping empty tokens. -/
def tokens (s : String) : List String :=
  tokensAux [] s.data

/-- Modelled from the spec: the process-execution layer (run_program and gdb
live in the external mama tool; ConanFile.run in conan). Per the spec, a
non-zero exit status of the spawned test process surfaces a fatal error
carrying the failing command line and the exit code verbatim; a zero exit is
success. -/
def runProgram (command : String) (exitCode : Nat) : Except String Unit :=
  if exitCode = 0 then
    Except.ok ()
  else
    Except.error (command ++ " failed with exit code " ++ toString exitCode)

example : ReCpp.package Platform.mips =
    [⟨"dl", none⟩, ⟨"rt", none⟩, ⟨"atomic", none⟩] := by decide

example : strContains "nogdb -v" "nogdb" = true := by decide

example : strRemoveAll "nogdb -v" "nogdb" = " -v" := by decide

example : (ReCpp.test "nogdb -v").command = "bin/RppTests  -v" := by decide

example : tokens (ReCpp.test "nogdb -v").command = ["bin/RppTests", "-v"] := by
  decide

example : tokens (ReCpp.test "nogdbx -v").command =
    ["bin/RppTests", "x", "-v"] := by decide

theorem enable_from_env_options (env : Env) (n : String) (f : Bool)
    (s : BuildState) :
    (enable_from_env env n f s).options =
      s.options ++ (if envEnabled env n || f then [n] else []) := by
  unfold enable_from_env
  split <;> simp

theorem enable_from_env_cl_flags (env : Env) (n : String) (f : Bool)
    (s : BuildState) :
    (enable_from_env env n f s).cl_flags = s.cl_flags := by
  unfold enable_from_env
  split <;> simp

theorem map_filter_cons {α β : Type} (g : α → β) (q : α → Bool) (a : α)
    (l : List α) :
    ((a :: l).filter q).map g =
      (if q a then [g a] else []) ++ (l.filter q).map g := by
  by_cases h : q a <;> simp [List.filter_cons, h]

theorem configure_options (p : Platform) (env : Env) (cfg : Config)
    (s : BuildState) :
    (ReCpp.configure p env cfg s).options =
      s.options ++
        ((registry cfg).filter fun nf => envEnabled env nf.1 || nf.2).map
          Prod.fst := by
  simp only [ReCpp.configure, registry, enable_from_env_options,
    apply_ite BuildState.options, map_filter_cons, List.filter_nil,
    List.map_nil, List.append_nil, List.append_assoc, ite_self]

theorem configure_cl_flags (p : Platform) (env : Env) (cfg : Config)
    (s : BuildState) :
    (ReCpp.configure p env cfg s).cl_flags =
      s.cl_flags ++
        (if p = Platform.windows ∧ env "APPVEYOR" ≠ none then ["/DAPPVEYOR"]
         else []) := by
  simp only [ReCpp.configure, enable_from_env_cl_flags,
    apply_ite BuildState.cl_flags]
  split_ifs <;> simp

theorem resolveBuildOptions_eq (p : Platform) (env : Env) (cfg : Config) :
    resolveBuildOptions p env cfg =
      ((registry cfg).filter fun nf => envEnabled env nf.1 || nf.2).map
        Prod.fst := by
  simp [resolveBuildOptions, configure_options, initState]

theorem mem_resolveBuildOptions (p : Platform) (env : Env) (cfg : Config)
    (n : String) :
    n ∈ resolveBuildOptions p env cfg ↔
      ∃ f, (n, f) ∈ registry cfg ∧ (envEnabled env n || f) = true := by
  rw [resolveBuildOptions_eq, List.mem_map]
  constructor
  · rintro ⟨⟨a, b⟩, hmem, rfl⟩
    rw [List.mem_filter] at hmem
    exact ⟨b, hmem.1, hmem.2⟩
  · rintro ⟨f, hmem, hf⟩
    exact ⟨(n, f), List.mem_filter.mpr ⟨hmem, hf⟩, rfl⟩

theorem mem_resolve_slot (p : Platform) (env : Env) (cfg : Config)
    (n : String) (F : Bool) (hmem : (n, F) ∈ registry cfg)
    (huniq : ∀ f, (n, f) ∈ registry cfg → f = F) :
    n ∈ resolveBuildOptions p env cfg ↔ (envEnabled env n || F) = true := by
  rw [mem_resolveBuildOptions]
  constructor
  · rintro ⟨f, hf, hc⟩
    rwa [huniq f hf] at hc
  · intro hc
    exact ⟨F, hmem, hc⟩

theorem envEnabled_iff (env : Env) (n : String) :
    envEnabled env n = true ↔
      (env n = some "1" ∨ env n = some "ON" ∨ env n = some "TRUE") := by
  unfold envEnabled
  cases h : env n <;> simp [h, or_assoc]

/-- C2: for every platform target, sys-lib resolution selects exactly one
branch by the mutually exclusive priority order raspi/oclea, then mips, then
linux, then android, then macos/ios, then none; each branch contributes only
its own fixed ordered library list and no two branch outputs are
unioned. -/
theorem claim_c2 :
    ReCpp.package Platform.raspi = [⟨"dl", none⟩, ⟨"rt", none⟩] ∧
    ReCpp.package Platform.oclea = [⟨"dl", none⟩, ⟨"rt", none⟩] ∧
    ReCpp.package Platform.mips =
      [⟨"dl", none⟩, ⟨"rt", none⟩, ⟨"atomic", none⟩] ∧
    ReCpp.package Platform.linux =
      [⟨"dl", none⟩, ⟨"dw", some "libdw-dev"⟩, ⟨"rt", none⟩] ∧
    ReCpp.package Platform.android = [⟨"android", none⟩, ⟨"log", none⟩] ∧
    ReCpp.package Platform.macos = [⟨"-framework Foundation", none⟩] ∧
    ReCpp.package Platform.ios = [⟨"-framework Foundation", none⟩] ∧
    ReCpp.package Platform.windows = [] ∧
    ReCpp.package Platform.other = [] ∧
    ∀ p : Platform,
      ReCpp.package p ∈
        [[⟨"dl", none⟩, ⟨"rt", none⟩],
         [⟨"dl", none⟩, ⟨"rt", none⟩, ⟨"atomic", none⟩],
         [⟨"dl", none⟩, ⟨"dw", some "libdw-dev"⟩, ⟨"rt", none⟩],
         [⟨"android", none⟩, ⟨"log", none⟩],
         [⟨"-framework Foundation", none⟩],
         ([] : List SysLibRequirement)] := by
  decide

/-- C9: every platform target outside the recognized set (raspi, oclea, mips,
linux, android, macos, ios) resolves to the empty sys-lib list; the fallthrough
is total, so no error is possible. -/
theorem claim_c9 (p : Platform) (h1 : p ≠ Platform.raspi)
    (h2 : p ≠ Platform.oclea) (h3 : p ≠ Platform.mips)
    (h4 : p ≠ Platform.linux) (h5 : p ≠ Platform.android)
    (h6 : p ≠ Platform.macos) (h7 : p ≠ Platform.ios) :
    ReCpp.package p = [] := by
  cases p <;> simp_all [ReCpp.package]

/-- C9 witness: the windows platform target is outside the recognized set and
resolves to the empty sys-lib list. -/
theorem claim_c9_witness : ReCpp.package Platform.windows = [] :=
  claim_c9 Platform.windows (by decide) (by decide) (by decide) (by decide)
    (by decide) (by decide) (by decide)

/-- C4 counterexample: the mips sys-lib set is not the generic linux set plus
an atomic library, because linux exports the dw requirement (with hint
libdw-dev) while mips does not. -/
theorem claim_c4_counterexample :
    SysLibRequirement.mk "dw" (some "libdw-dev") ∈
      ReCpp.package Platform.linux ∧
    SysLibRequirement.mk "dw" (some "libdw-dev") ∉
      ReCpp.package Platform.mips ∧
    ReCpp.package Platform.mips ≠
      ReCpp.package Platform.linux ++ [SysLibRequirement.mk "atomic" none] := by
  decide

/-- C4 amended: the mips sys-lib list equals the raspi/oclea list (dl, rt)
plus an additional atomic-operations library, not the linux list, which
additionally carries dw; it remains true that mips includes an atomic
requirement that linux does not include. -/
theorem claim_c4_amended :
    ReCpp.package Platform.mips =
      ReCpp.package Platform.raspi ++ [SysLibRequirement.mk "atomic" none] ∧
    SysLibRequirement.mk "atomic" none ∈ ReCpp.package Platform.mips ∧
    (ReCpp.package Platform.linux).all (fun r => r.name != "atomic") = true := by
  decide

/-- C3: each registered flag of the registry (BUILD_TESTS,
BUILD_WITH_MEM_SAFETY, BUILD_WITH_THREAD_SAFETY, BUILD_WITH_CODE_COVERAGE,
CXX17, CXX20) is enabled, that is its option appears in the resolved build
options, iff its environment value is exactly "1", "ON" or "TRUE", or its
caller-supplied force condition holds (test-mode request for BUILD_TESTS,
language-standard preference for CXX17/CXX20, no force for the rest); any
other value, including "0", "OFF", the empty string and unset, leaves it
disabled when not forced. -/
theorem claim_c3 (p : Platform) (env : Env) (cfg : Config) :
    ("BUILD_TESTS" ∈ resolveBuildOptions p env cfg ↔
      ((env "BUILD_TESTS" = some "1" ∨ env "BUILD_TESTS" = some "ON" ∨
        env "BUILD_TESTS" = some "TRUE") ∨ cfg.test ≠ "")) ∧
    ("BUILD_WITH_MEM_SAFETY" ∈ resolveBuildOptions p env cfg ↔
      (env "BUILD_WITH_MEM_SAFETY" = some "1" ∨
       env "BUILD_WITH_MEM_SAFETY" = some "ON" ∨
       env "BUILD_WITH_MEM_SAFETY" = some "TRUE")) ∧
    ("BUILD_WITH_THREAD_SAFETY" ∈ resolveBuildOptions p env cfg ↔
      (env "BUILD_WITH_THREAD_SAFETY" = some "1" ∨
       env "BUILD_WITH_THREAD_SAFETY" = some "ON" ∨
       env "BUILD_WITH_THREAD_SAFETY" = some "TRUE")) ∧
    ("BUILD_WITH_CODE_COVERAGE" ∈ resolveBuildOptions p env cfg ↔
      (env "BUILD_WITH_CODE_COVERAGE" = some "1" ∨
       env "BUILD_WITH_CODE_COVERAGE" = some "ON" ∨
       env "BUILD_WITH_CODE_COVERAGE" = some "TRUE")) ∧
    ("CXX17" ∈ resolveBuildOptions p env cfg ↔
      ((env "CXX17" = some "1" ∨ env "CXX17" = some "ON" ∨
        env "CXX17" = some "TRUE") ∨ cfg.cxx17 = true)) ∧
    ("CXX20" ∈ resolveBuildOptions p env cfg ↔
      ((env "CXX20" = some "1" ∨ env "CXX20" = some "ON" ∨
        env "CXX20" = some "TRUE") ∨ cfg.cxx20 = true)) := by
  refine ⟨?_, ?_, ?_, ?_, ?_, ?_⟩
  · rw [mem_resolve_slot p env cfg "BUILD_TESTS" (cfg.test != "")
        (by simp [registry]) (by intro f hf; simp [registry] at hf; exact hf),
      Bool.or_eq_true, envEnabled_iff]
    simp [bne_iff_ne]
  · rw [mem_resolve_slot p env cfg "BUILD_WITH_MEM_SAFETY" false
        (by simp [registry]) (by intro f hf; simp [registry] at hf; exact hf),
      Bool.or_false, envEnabled_iff]
  · rw [mem_resolve_slot p env cfg "BUILD_WITH_THREAD_SAFETY" false
        (by simp [registry]) (by intro f hf; simp [registry] at hf; exact hf),
      Bool.or_false, envEnabled_iff]
  · rw [mem_resolve_slot p env cfg "BUILD_WITH_CODE_COVERAGE" false
        (by simp [registry]) (by intro f hf; simp [registry] at hf; exact hf),
      Bool.or_false, envEnabled_iff]
  · rw [mem_resolve_slot p env cfg "CXX17" cfg.cxx17
        (by simp [registry]) (by intro f hf; simp [registry] at hf; exact hf),
      Bool.or_eq_true, envEnabled_iff]
  · rw [mem_resolve_slot p env cfg "CXX20" cfg.cxx20
        (by simp [registry]) (by intro f hf; simp [registry] at hf; exact hf),
      Bool.or_eq_true, envEnabled_iff]

/-- C6: for every environment-flag assignment, each enabled registered flag
appends exactly one build option, and the output lists the enabled flags in
the fixed registry order BUILD_TESTS, BUILD_WITH_MEM_SAFETY,
BUILD_WITH_THREAD_SAFETY, BUILD_WITH_CODE_COVERAGE, CXX17, CXX20: the output
is exactly the enabled sub-sequence of the registry, which carries the six
names in that fixed order, and the output has no duplicates. -/
theorem claim_c6 (p : Platform) (env : Env) (cfg : Config) :
    resolveBuildOptions p env cfg =
      ((registry cfg).filter fun nf => envEnabled env nf.1 || nf.2).map
        Prod.fst ∧
    (registry cfg).map Prod.fst =
      ["BUILD_TESTS", "BUILD_WITH_MEM_SAFETY", "BUILD_WITH_THREAD_SAFETY",
       "BUILD_WITH_CODE_COVERAGE", "CXX17", "CXX20"] ∧
    (resolveBuildOptions p env cfg).Nodup := by
  refine ⟨resolveBuildOptions_eq p env cfg, by simp [registry], ?_⟩
  rw [resolveBuildOptions_eq]
  have hsub : List.Sublist
      (((registry cfg).filter fun nf => envEnabled env nf.1 || nf.2).map
        Prod.fst)
      ((registry cfg).map Prod.fst) :=
    List.Sublist.map _ (List.filter_sublist _)
  have hnd : ((registry cfg).map Prod.fst).Nodup := by
    simp [registry]
  exact List.Nodup.sublist hsub hnd

/-- C8: build-option resolution is a pure function of its inputs: a configure
call contributes exactly the sequence resolveBuildOptions of its platform,
environment and config, independently of the incoming state, so two
successive calls with identical inputs contribute two identical ordered
sequences and no state leaks between calls. -/
theorem claim_c8 (p : Platform) (env : Env) (cfg : Config) (s : BuildState) :
    (ReCpp.configure p env cfg s).options =
      s.options ++ resolveBuildOptions p env cfg ∧
    (ReCpp.configure p env cfg (ReCpp.configure p env cfg initState)).options =
      resolveBuildOptions p env cfg ++ resolveBuildOptions p env cfg := by
  constructor
  · rw [configure_options, resolveBuildOptions_eq]
  · rw [configure_options, configure_options, resolveBuildOptions_eq]
    simp [initState]

/-- C10: the /DAPPVEYOR compiler flag is added iff the platform target is
windows and the APPVEYOR environment variable is set at all (a presence
check: the empty string counts as set, the value is never compared against
"1", "ON" or "TRUE"); on non-windows targets it is never added. -/
theorem claim_c10 (p : Platform) (env : Env) (cfg : Config) :
    "/DAPPVEYOR" ∈ resolveClFlags p env cfg ↔
      (p = Platform.windows ∧ env "APPVEYOR" ≠ none) := by
  have h : resolveClFlags p env cfg =
      (if p = Platform.windows ∧ env "APPVEYOR" ≠ none then ["/DAPPVEYOR"]
       else []) := by
    simp [resolveClFlags, configure_cl_flags, initState]
  rw [h]
  split <;> simp_all

theorem listContains_nil_pat (l : List Char) : listContains [] l = true := by
  cases l <;> simp [listContains, List.isPrefixOf]

theorem isPrefixOf_append_self (l t : List Char) :
    l.isPrefixOf (l ++ t) = true := by
  induction l with
  | nil => simp [List.isPrefixOf]
  | cons c cs ih => simp [List.isPrefixOf, ih]

theorem listContains_parts (pat pre suf : List Char) :
    listContains pat (pre ++ (pat ++ suf)) = true := by
  induction pre with
  | nil =>
    cases pat with
    | nil => simp [listContains_nil_pat]
    | cons c cs =>
      have h := isPrefixOf_append_self (c :: cs) suf
      rw [List.cons_append] at h
      simp [listContains, h]
  | cons c cs ih =>
    simp [listContains, ih]

theorem strContains_of_parts (s pat : String) (pre suf : List Char)
    (h : s.data = pre ++ (pat.data ++ suf)) : strContains s pat = true := by
  unfold strContains
  rw [h]
  exact listContains_parts pat.data pre suf

/-- C1: the resolved test invocation is wrapped in the gdb debugger iff the
raw argument string does not contain the sentinel "nogdb"; when the sentinel
is present it is removed from the argument string and the test executable is
invoked directly with the remaining arguments; in particular "nogdb -v"
yields a direct invocation passing -v, and "-v" yields a gdb-wrapped
invocation passing -v through. -/
theorem claim_c1 (args : String) :
    ((ReCpp.test args).use_gdb = true ↔ strContains args "nogdb" = false) ∧
    (strContains args "nogdb" = true →
      (ReCpp.test args).use_gdb = false ∧
      (ReCpp.test args).command =
        "bin/RppTests " ++ strRemoveAll args "nogdb") ∧
    (strContains args "nogdb" = false →
      (ReCpp.test args).command = "bin/RppTests " ++ args) ∧
    tokens (ReCpp.test "nogdb -v").command = ["bin/RppTests", "-v"] ∧
    (ReCpp.test "nogdb -v").use_gdb = false ∧
    tokens (ReCpp.test "-v").command = ["bin/RppTests", "-v"] ∧
    (ReCpp.test "-v").use_gdb = true := by
  refine ⟨?_, ?_, ?_, by decide, by decide, by decide, by decide⟩ <;>
    unfold ReCpp.test <;> cases h : strContains args "nogdb" <;> simp [h]

/-- C1 witness: on the concrete input "nogdb -v" the sentinel is present, the
invocation is not debugger-wrapped, and the command carries the argument
string with the sentinel removed. -/
theorem claim_c1_witness :
    strContains "nogdb -v" "nogdb" = true ∧
    (ReCpp.test "nogdb -v").use_gdb = false ∧
    (ReCpp.test "nogdb -v").command =
      "bin/RppTests " ++ strRemoveAll "nogdb -v" "nogdb" :=
  ⟨by decide, ((claim_c1 "nogdb -v").2.1 (by decide)).1,
    ((claim_c1 "nogdb -v").2.1 (by decide)).2⟩

/-- C7 counterexample: the token nogdbx of the argument string "nogdbx -v"
differs from the sentinel token "nogdb" yet is not passed through verbatim:
the resolution removes the substring "nogdb" from inside it, so the
executable receives the token x instead of nogdbx. -/
theorem claim_c7_counterexample :
    "nogdbx" ∈ tokens "nogdbx -v" ∧
    "nogdbx" ≠ "nogdb" ∧
    "nogdbx" ∉ tokens (ReCpp.test "nogdbx -v").command ∧
    tokens (ReCpp.test "nogdbx -v").command = ["bin/RppTests", "x", "-v"] := by
  decide

/-- C7 amended: tokens are not individually protected: when the argument
string contains "nogdb" as a substring, every occurrence of that substring is
removed from the whole string, including from inside larger tokens, and the
remainder is passed to the executable; only when the string does not contain
"nogdb" at all is the argument string passed through verbatim. -/
theorem claim_c7_amended (args : String) :
    (strContains args "nogdb" = false →
      (ReCpp.test args).command = "bin/RppTests " ++ args) ∧
    (strContains args "nogdb" = true →
      (ReCpp.test args).command =
        "bin/RppTests " ++ strRemoveAll args "nogdb") := by
  unfold ReCpp.test
  cases h : strContains args "nogdb" <;> simp [h]

/-- C7 amended witness: the sentinel-free argument string "-v" is passed
through verbatim. -/
theorem claim_c7_amended_witness :
    strContains "-v" "nogdb" = false ∧
    (ReCpp.test "-v").command = "bin/RppTests " ++ "-v" :=
  ⟨by decide, (claim_c7_amended "-v").1 (by decide)⟩

/-- C5: a zero exit of the invoked test process is success; a non-zero exit
surfaces a fatal error whose report contains the literal failing command line
and the numeric exit code verbatim. -/
theorem claim_c5 (cmd : String) (code : Nat) :
    (code = 0 → runProgram cmd code = Except.ok ()) ∧
    (code ≠ 0 →
      runProgram cmd code =
        Except.error (cmd ++ " failed with exit code " ++ toString code) ∧
      strContains (cmd ++ " failed with exit code " ++ toString code) cmd =
        true ∧
      strContains (cmd ++ " failed with exit code " ++ toString code)
        (toString code) = true) := by
  constructor
  · intro h
    simp [runProgram, h]
  · intro h
    refine ⟨by simp [runProgram, h], ?_, ?_⟩
    · refine strContains_of_parts _ cmd []
        ((" failed with exit code " ++ toString code).data) ?_
      simp [String.data_append, List.append_assoc]
    · refine strContains_of_parts _ (toString code)
        ((cmd ++ " failed with exit code ").data) [] ?_
      simp [String.data_append]

/-- C5 witness: a simulated exit code 7 of the test command produces a fatal
error whose report contains the command line and the code 7. -/
theorem claim_c5_witness :
    (7 : Nat) ≠ 0 ∧
    (runProgram "bin/RppTests" 7 =
      Except.error ("bin/RppTests" ++ " failed with exit code " ++
        toString (7 : Nat)) ∧
    strContains ("bin/RppTests" ++ " failed with exit code " ++
      toString (7 : Nat)) "bin/RppTests" = true ∧
    strContains ("bin/RppTests" ++ " failed with exit code " ++
      toString (7 : Nat)) (toString (7 : Nat)) = true) :=
  ⟨by decide, (claim_c5 "bin/RppTests" 7).2 (by decide)⟩
